import Mathlib

/-!
Verification of the Todo HTTP service (`src/main.py`) against its
specification. The handlers are embedded shallowly: the MongoDB collection
`db["todo"]` is a `List Doc`, timestamps are naturals, and the current time,
the store-assigned id and the environment are passed as explicit arguments.
Each handler returns the collection after the request together with the HTTP
outcome (`Except Err body`, where `Err` models `HTTPException`).
-/

namespace TodoApp

/-- A BSON ObjectId, modelled as its 24-character lowercase hex string
(`str(oid)` is exactly this string). -/
structure ObjectId where
  hex : String
deriving DecidableEq, Repr

/-- Whether a character is a hexadecimal digit (either case). -/
def isHexChar (c : Char) : Bool :=
  c.isDigit || ('a' ≤ c && c ≤ 'f') || ('A' ≤ c && c ≤ 'F')

/-- Lower-casing of the six upper-case hexadecimal letters; on the strings
accepted by `ObjectId.parse` this is exactly full lower-casing. -/
def hexCharLower (c : Char) : Char :=
  if c = 'A' then 'a' else if c = 'B' then 'b' else if c = 'C' then 'c'
  else if c = 'D' then 'd' else if c = 'E' then 'e' else if c = 'F' then 'f'
  else c

/-- Modelled from the external `bson` library used by `src/main.py`:
`ObjectId(todo_id)` succeeds exactly on 24-character hexadecimal strings
(either case, normalised to lower case, so that equal ids compare equal) and
raises otherwise. The handlers wrap the constructor in `try/except` and map
failure to a 400 error. -/
def ObjectId.parse (s : String) : Option ObjectId :=
  if s.length = 24 && s.data.all isHexChar then
    some ⟨⟨s.data.map hexCharLower⟩⟩
  else none

/-- A document stored in the `todo` collection: a MongoDB document whose
fields other than `_id` may be absent (`none`). -/
structure Doc where
  _id : ObjectId
  title : Option String
  completed : Option Bool
  created_at : Option Nat
  updated_at : Option Nat
deriving DecidableEq, Repr

/-- The JSON object produced by `serialize_todo`. -/
structure SerializedTodo where
  id : String
  title : String
  completed : Bool
  created_at : Option Nat
  updated_at : Option Nat
deriving DecidableEq, Repr

/-- `serialize_todo` from `src/main.py`: `str(doc.get("_id"))`,
`doc.get("title", "")`, `bool(doc.get("completed", False))`, and the two
timestamps passed through as stored. -/
def serialize_todo (doc : Doc) : SerializedTodo :=
  { id := doc._id.hex
    title := doc.title.getD ""
    completed := doc.completed.getD false
    created_at := doc.created_at
    updated_at := doc.updated_at }

/-- An `HTTPException(status_code=..., detail=...)`. -/
structure Err where
  status : Nat
  detail : String
deriving DecidableEq, Repr

/-- `db["todo"].find_one({"_id": oid})`: the first stored document carrying
the given id, if any. -/
def findOne (store : List Doc) (oid : ObjectId) : Option Doc :=
  store.find? (fun d => d._id == oid)

/-- The `$set` document assembled by `update_todo`: the surviving optional
`title` / `completed` fields plus the unconditional `updated_at` stamp. -/
structure SetDoc where
  title : Option String
  completed : Option Bool
  updated_at : Nat
deriving DecidableEq, Repr

/-- Field-merge application of a `$set` document to a stored document:
supplied fields are overwritten, everything else is untouched. -/
def applySet (d : Doc) (f : SetDoc) : Doc :=
  { d with
    title := match f.title with | some t => some t | none => d.title
    completed := match f.completed with | some c => some c | none => d.completed
    updated_at := some f.updated_at }

/-- `db["todo"].update_one({"_id": oid}, {"$set": fields})`: field-merges into
the first matching document and reports `matched_count` together with the
collection afterwards. -/
def update_one (store : List Doc) (oid : ObjectId) (f : SetDoc) : Nat × List Doc :=
  match store with
  | [] => (0, [])
  | d :: rest =>
    if d._id == oid then (1, applySet d f :: rest)
    else
      let r := update_one rest oid f
      (r.1, d :: r.2)

/-- `db["todo"].delete_one({"_id": oid})`: removes the first matching document
and reports `deleted_count` together with the collection afterwards. -/
def delete_one (store : List Doc) (oid : ObjectId) : Nat × List Doc :=
  match store with
  | [] => (0, [])
  | d :: rest =>
    if d._id == oid then (1, rest)
    else
      let r := delete_one rest oid
      (r.1, d :: r.2)

/-- The `TodoCreate` pydantic model: `title` is required. -/
structure TodoCreate where
  title : String
deriving DecidableEq, Repr

/-- The `TodoUpdate` pydantic model. The outer `Option` records whether the
caller supplied the field at all (`model_dump(exclude_unset=True)`); the inner
`Option` is the supplied value, `none` for an explicit JSON `null`. -/
structure TodoUpdate where
  title : Option (Option String)
  completed : Option (Option Bool)
deriving DecidableEq, Repr

/-- `{k: v for k, v in payload.model_dump(exclude_unset=True).items() if v is
not None}`: the fields supplied by the caller with a non-null value. -/
def TodoUpdate.update_fields (p : TodoUpdate) : Option String × Option Bool :=
  (p.title.join, p.completed.join)

/-- The PATCH handler `update_todo`, with the current time (`datetime.now`)
passed explicitly. Returns the collection after the request and the HTTP
outcome. The final `none` branch models `serialize_todo(None)` crashing into
a 500 response; it is unreachable when `matched_count ≠ 0`. -/
def update_todo (store : List Doc) (todo_id : String) (payload : TodoUpdate)
    (now : Nat) : List Doc × Except Err SerializedTodo :=
  match ObjectId.parse todo_id with
  | none => (store, .error ⟨400, "Invalid ID"⟩)
  | some oid =>
    if payload.update_fields = (none, none) then
      (store, .error ⟨400, "No fields to update"⟩)
    else
      let setDoc : SetDoc := ⟨payload.update_fields.1, payload.update_fields.2, now⟩
      let r := update_one store oid setDoc
      if r.1 = 0 then (r.2, .error ⟨404, "Todo not found"⟩)
      else
        match findOne r.2 oid with
        | some doc => (r.2, .ok (serialize_todo doc))
        | none => (r.2, .error ⟨500, "Internal Server Error"⟩)

/-- The DELETE handler `delete_todo`. On success the handler body returns
`{"ok": True}`; the route's declared status code is 204. -/
def delete_todo (store : List Doc) (todo_id : String) :
    List Doc × Except Err (List (String × Bool)) :=
  match ObjectId.parse todo_id with
  | none => (store, .error ⟨400, "Invalid ID"⟩)
  | some oid =>
    let r := delete_one store oid
    if r.1 = 0 then (r.2, .error ⟨404, "Todo not found"⟩)
    else (r.2, .ok [("ok", true)])

/-- The response body as emitted on the wire. -/
inductive HttpBody (β : Type) where
  | empty
  | json (b : β)
  | detail (s : String)
deriving DecidableEq, Repr

/-- Modelled from the spec: the HTTP framework layer (not under `src/`) turns
a handler outcome into a wire response. A raised `HTTPException` becomes its
own status with a detail body; a success uses the route's declared status, and
for a 204 success "no response body content" is emitted, success being
"signaled purely by status". -/
def emit (declaredStatus : Nat) : Except Err β → Nat × HttpBody β
  | .error e => (e.status, .detail e.detail)
  | .ok b => (declaredStatus, if declaredStatus = 204 then .empty else .json b)

/-- Modelled from the spec: `schemas.Todo` and `database.create_document` are
not under `src/`. Per the spec, `Todo(title=...)` is a new record with
`completed = false`, a store-assigned `created_at` and no `updated_at`, and
`create_document` inserts it and returns the assigned id. The store-assigned
id and creation timestamp are passed explicitly. -/
def create_document (store : List Doc) (newId : ObjectId) (now : Nat)
    (title : String) : List Doc × ObjectId :=
  (store ++ [{ _id := newId, title := some title, completed := some false,
               created_at := some now, updated_at := none }], newId)

/-- The POST handler `create_todo`: builds the new todo from the payload,
inserts it, re-reads it by the assigned id and returns the serialized
document. The route's declared status code is 201. -/
def create_todo (store : List Doc) (payload : TodoCreate) (newId : ObjectId)
    (now : Nat) : List Doc × Except Err SerializedTodo :=
  let r := create_document store newId now payload.title
  match findOne r.1 r.2 with
  | some doc => (r.1, .ok (serialize_todo doc))
  | none => (r.1, .error ⟨500, "Internal Server Error"⟩)

/-- The comparison under which CPython's stable sort with
`key=lambda d: d.get("created_at")` and `reverse=True` orders documents whose
keys are all present: `a` may precede `b` iff `b`'s key is `≤` `a`'s. -/
def descLE (a b : Doc) : Bool := b.created_at.getD 0 ≤ a.created_at.getD 0

/-- The GET handler `list_todos`. `get_documents("todo", {}, limit=None)` is
modelled from the spec as returning the whole collection. The call
`docs.sort(key=lambda d: d.get("created_at"), reverse=True)` is CPython
`list.sort`: comparing a `None` key with anything (another `None` included)
raises `TypeError`, and with two or more elements every element's key takes
part in at least one comparison during run detection, while with at most one
element no comparison happens at all. The handler's `except` clause converts
the raise into a 500 `HTTPException` whose detail is `str(e)`. On the
non-raising inputs the sort is the stable descending reordering, which
`List.mergeSort` with `descLE` computes. -/
def list_todos (store : List Doc) : Except Err (List SerializedTodo) :=
  if 2 ≤ store.length && store.any (fun d => d.created_at.isNone) then
    .error ⟨500, "TypeError: unsupported comparison between NoneType and datetime"⟩
  else
    .ok ((store.mergeSort descLE).map serialize_todo)

/-- The database handle as the diagnostic endpoint sees it: the value of its
`name` attribute when the object has one, and the outcome of
`list_collection_names()` (an error message when the connection fails). -/
structure DbHandle where
  name : Option String
  collections : Except String (List String)

/-- The payload returned by the GET /test handler. -/
structure TestResponse where
  backend : String
  database : String
  database_url : Option String
  database_name : Option String
  connection_status : String
  collections : List String

/-- Truthiness of `os.getenv(...)`: unset and empty both count as not set. -/
def envSet : Option String → Bool
  | none => false
  | some s => s != ""

/-- The GET /test handler `test_database`, with the store handle and the two
environment variables passed explicitly. It mirrors the source line by line;
in particular the last two assignments overwrite `database_url` and
`database_name` with pure set / not-set indicators. -/
def test_database (db : Option DbHandle) (url dbname : Option String) :
    TestResponse :=
  let base : TestResponse :=
    { backend := "✅ Running", database := "❌ Not Available",
      database_url := none, database_name := none,
      connection_status := "Not Connected", collections := [] }
  let r1 : TestResponse :=
    match db with
    | some h =>
      let shownName : String :=
        match h.name with
        | some n => n
        | none => "✅ Connected"
      let r : TestResponse :=
        { base with
          database := "✅ Available",
          database_url := some "✅ Configured",
          database_name := some shownName,
          connection_status := "Connected" }
      match h.collections with
      | .ok cols =>
        { r with collections := cols.take 10, database := "✅ Connected & Working" }
      | .error e =>
        { r with database := "⚠️  Connected but Error: " ++ e.take 50 }
    | none => { base with database := "⚠️  Available but not initialized" }
  { r1 with
    database_url := some (if envSet url then "✅ Set" else "❌ Not Set"),
    database_name := some (if envSet dbname then "✅ Set" else "❌ Not Set") }

/-- The HTTP result of GET /test: the route declares no status code, so a
successful return is emitted as 200, and the handler catches every internal
exception, so it always returns. -/
def test_database_endpoint (db : Option DbHandle) (url dbname : Option String) :
    Nat × TestResponse :=
  (200, test_database db url dbname)

/-! ### Store-operation lemmas -/

theorem applySet_id (d : Doc) (f : SetDoc) : (applySet d f)._id = d._id := rfl

theorem update_one_of_no_match {store : List Doc} {oid : ObjectId} (f : SetDoc)
    (h : ∀ d ∈ store, d._id ≠ oid) :
    update_one store oid f = (0, store) := by
  induction store with
  | nil => rfl
  | cons e rest ih =>
    have hb : (e._id == oid) = false :=
      beq_eq_false_iff_ne.mpr (h e (List.mem_cons_self e rest))
    simp [update_one, hb, ih (fun x hx => h x (List.mem_cons_of_mem e hx))]

theorem update_one_of_found {store : List Doc} {oid : ObjectId} {d : Doc} (f : SetDoc)
    (h : findOne store oid = some d) :
    (update_one store oid f).1 = 1
    ∧ findOne (update_one store oid f).2 oid = some (applySet d f) := by
  induction store with
  | nil => simp [findOne] at h
  | cons e rest ih =>
    unfold findOne at h
    rw [List.find?_cons] at h
    cases hb : e._id == oid with
    | true =>
      rw [hb] at h
      have hde : e = d := Option.some.inj h
      subst hde
      have hb2 : ((applySet e f)._id == oid) = true := by
        simpa [applySet_id] using hb
      have hu : update_one (e :: rest) oid f = (1, applySet e f :: rest) := by
        simp [update_one, hb]
      refine ⟨by simp [hu], ?_⟩
      unfold findOne
      rw [hu, List.find?_cons, hb2]
    | false =>
      rw [hb] at h
      have h2 : findOne rest oid = some d := h
      obtain ⟨ih1, ih2⟩ := ih h2
      have hu : update_one (e :: rest) oid f
          = ((update_one rest oid f).1, e :: (update_one rest oid f).2) := by
        simp [update_one, hb]
      refine ⟨by simp [hu, ih1], ?_⟩
      unfold findOne at ih2 ⊢
      rw [hu, List.find?_cons, hb]
      exact ih2

theorem delete_one_of_no_match {store : List Doc} {oid : ObjectId}
    (h : ∀ d ∈ store, d._id ≠ oid) :
    delete_one store oid = (0, store) := by
  induction store with
  | nil => rfl
  | cons e rest ih =>
    have hb : (e._id == oid) = false :=
      beq_eq_false_iff_ne.mpr (h e (List.mem_cons_self e rest))
    simp [delete_one, hb, ih (fun x hx => h x (List.mem_cons_of_mem e hx))]

theorem delete_one_of_found {store : List Doc} {oid : ObjectId} {d : Doc}
    (h : findOne store oid = some d) :
    (delete_one store oid).1 = 1 := by
  induction store with
  | nil => simp [findOne] at h
  | cons e rest ih =>
    unfold findOne at h
    rw [List.find?_cons] at h
    cases hb : e._id == oid with
    | true => simp [delete_one, hb]
    | false =>
      rw [hb] at h
      have h2 : findOne rest oid = some d := h
      simp [delete_one, hb, ih h2]

theorem findOne_append_fresh {store : List Doc} {oid : ObjectId}
    (h : ∀ d ∈ store, d._id ≠ oid) (nd : Doc) (hnd : nd._id = oid) :
    findOne (store ++ [nd]) oid = some nd := by
  induction store with
  | nil =>
    have hb : (nd._id == oid) = true := beq_iff_eq.mpr hnd
    unfold findOne
    rw [List.nil_append, List.find?_cons, hb]
  | cons e rest ih =>
    have hb : (e._id == oid) = false :=
      beq_eq_false_iff_ne.mpr (h e (List.mem_cons_self e rest))
    have ihr := ih (fun x hx => h x (List.mem_cons_of_mem e hx))
    unfold findOne at ihr ⊢
    rw [List.cons_append, List.find?_cons, hb]
    exact ihr

/-! ### Sample identifiers and documents for concrete instantiations -/

def oidA : ObjectId := ⟨"aaaaaaaaaaaaaaaaaaaaaaaa"⟩

def oidB : ObjectId := ⟨"bbbbbbbbbbbbbbbbbbbbbbbb"⟩

def oidC : ObjectId := ⟨"cccccccccccccccccccccccc"⟩

def sampleA : Doc := ⟨oidA, some "A", some false, some 5, none⟩

def sampleB : Doc := ⟨oidB, some "B", some false, none, none⟩

def sampleC : Doc := ⟨oidC, some "C", some true, some 9, some 12⟩

def sampleBare : Doc := ⟨oidA, none, none, none, none⟩

/-! ### Claim theorems -/

/-- C2: an update whose effective field set is empty (body `{}` or every
supplied field explicitly null) fails with a 400 bad-request error and leaves
the stored collection completely unchanged. -/
theorem update_todo_empty_payload_rejected (store : List Doc) (todo_id : String)
    (p : TodoUpdate) (now : Nat) (h : p.update_fields = (none, none)) :
    (update_todo store todo_id p now).1 = store
    ∧ ∃ m, (update_todo store todo_id p now).2 = Except.error ⟨400, m⟩ := by
  unfold update_todo
  cases hp : ObjectId.parse todo_id with
  | none => exact ⟨rfl, ⟨"Invalid ID", rfl⟩⟩
  | some oid => refine ⟨?_, "No fields to update", ?_⟩ <;> simp [h]

/-- Witness for C2: updating with both fields explicitly null leaves a
one-document store untouched and yields a 400 error. -/
theorem update_todo_empty_payload_rejected_witness :
    (update_todo [sampleA] "aaaaaaaaaaaaaaaaaaaaaaaa" ⟨some none, some none⟩ 7).1 = [sampleA]
    ∧ ∃ m, (update_todo [sampleA] "aaaaaaaaaaaaaaaaaaaaaaaa" ⟨some none, some none⟩ 7).2
        = Except.error ⟨400, m⟩ :=
  update_todo_empty_payload_rejected [sampleA] "aaaaaaaaaaaaaaaaaaaaaaaa"
    ⟨some none, some none⟩ 7 rfl

/-- C4: a malformed path identifier makes both update and delete fail with a
400 bad-request error (never not-found), before any store operation, leaving
the collection unchanged. -/
theorem malformed_id_bad_request (store : List Doc) (todo_id : String)
    (p : TodoUpdate) (now : Nat) (h : ObjectId.parse todo_id = none) :
    update_todo store todo_id p now = (store, Except.error ⟨400, "Invalid ID"⟩)
    ∧ delete_todo store todo_id = (store, Except.error ⟨400, "Invalid ID"⟩) := by
  unfold update_todo delete_todo
  rw [h]
  exact ⟨rfl, rfl⟩

/-- Witness for C4: the malformed identifier `"nope"` is rejected with 400 by
both handlers without touching the store. -/
theorem malformed_id_bad_request_witness :
    update_todo [sampleA] "nope" ⟨some (some "x"), none⟩ 7
        = ([sampleA], Except.error ⟨400, "Invalid ID"⟩)
    ∧ delete_todo [sampleA] "nope" = ([sampleA], Except.error ⟨400, "Invalid ID"⟩) :=
  malformed_id_bad_request [sampleA] "nope" ⟨some (some "x"), none⟩ 7 rfl

/-- C5 counterexample: an update against a well-formed identifier matching no
stored document, but with an empty payload, returns 400 rather than the 404
the claim requires of every such request. -/
theorem nonexistent_id_empty_update_returns_400 :
    update_todo [] "cccccccccccccccccccccccc" ⟨none, none⟩ 0
      = ([], Except.error ⟨400, "No fields to update"⟩) := rfl

/-- C5 (amended): an update with a non-empty effective field set, and any
delete, against a well-formed identifier matching no stored document fails
with a 404 not-found error and leaves the collection unchanged. -/
theorem nonexistent_id_not_found (store : List Doc) (todo_id : String)
    (p : TodoUpdate) (now : Nat) (oid : ObjectId)
    (hid : ObjectId.parse todo_id = some oid)
    (hmiss : ∀ d ∈ store, d._id ≠ oid)
    (hne : p.update_fields ≠ (none, none)) :
    update_todo store todo_id p now = (store, Except.error ⟨404, "Todo not found"⟩)
    ∧ delete_todo store todo_id = (store, Except.error ⟨404, "Todo not found"⟩) := by
  have h1 : update_one store oid ⟨p.update_fields.1, p.update_fields.2, now⟩ = (0, store) :=
    update_one_of_no_match _ hmiss
  have h2 : delete_one store oid = (0, store) := delete_one_of_no_match hmiss
  unfold update_todo delete_todo
  rw [hid]
  constructor
  · simp [hne, h1]
  · simp [h2]

/-- Witness for C5: the fresh well-formed identifier `oidC` is reported 404 by
both handlers on a store holding only `sampleA`. -/
theorem nonexistent_id_not_found_witness :
    update_todo [sampleA] "cccccccccccccccccccccccc" ⟨some (some "x"), none⟩ 7
        = ([sampleA], Except.error ⟨404, "Todo not found"⟩)
    ∧ delete_todo [sampleA] "cccccccccccccccccccccccc"
        = ([sampleA], Except.error ⟨404, "Todo not found"⟩) :=
  nonexistent_id_not_found [sampleA] "cccccccccccccccccccccccc" ⟨some (some "x"), none⟩ 7
    oidC rfl (by decide) (by decide)

/-- C3: a successful update rewrites exactly the supplied fields plus
`updated_at`; the document's `_id`, `created_at` and every updatable field the
caller did not supply keep their previous values, supplied fields take the
supplied values, and the updated document is what the handler returns. -/
theorem update_todo_frame (store : List Doc) (todo_id : String) (p : TodoUpdate)
    (now : Nat) (oid : ObjectId) (d : Doc)
    (hid : ObjectId.parse todo_id = some oid)
    (hd : findOne store oid = some d)
    (hne : p.update_fields ≠ (none, none)) :
    findOne (update_todo store todo_id p now).1 oid
        = some (applySet d ⟨p.update_fields.1, p.update_fields.2, now⟩)
    ∧ (update_todo store todo_id p now).2
        = Except.ok (serialize_todo (applySet d ⟨p.update_fields.1, p.update_fields.2, now⟩))
    ∧ (applySet d ⟨p.update_fields.1, p.update_fields.2, now⟩)._id = d._id
    ∧ (applySet d ⟨p.update_fields.1, p.update_fields.2, now⟩).created_at = d.created_at
    ∧ (p.update_fields.1 = none →
        (applySet d ⟨p.update_fields.1, p.update_fields.2, now⟩).title = d.title)
    ∧ (p.update_fields.2 = none →
        (applySet d ⟨p.update_fields.1, p.update_fields.2, now⟩).completed = d.completed)
    ∧ (∀ t, p.update_fields.1 = some t →
        (applySet d ⟨p.update_fields.1, p.update_fields.2, now⟩).title = some t)
    ∧ (∀ c, p.update_fields.2 = some c →
        (applySet d ⟨p.update_fields.1, p.update_fields.2, now⟩).completed = some c)
    ∧ (applySet d ⟨p.update_fields.1, p.update_fields.2, now⟩).updated_at = some now := by
  obtain ⟨h1, h2⟩ :=
    update_one_of_found (⟨p.update_fields.1, p.update_fields.2, now⟩ : SetDoc) hd
  have hu : update_todo store todo_id p now
      = ((update_one store oid ⟨p.update_fields.1, p.update_fields.2, now⟩).2,
         Except.ok (serialize_todo (applySet d ⟨p.update_fields.1, p.update_fields.2, now⟩))) := by
    unfold update_todo
    rw [hid]
    simp [hne, h1, h2]
  refine ⟨by rw [hu]; exact h2, by rw [hu], rfl, rfl, ?_, ?_, ?_, ?_, rfl⟩
  · intro ht; simp [applySet, ht]
  · intro hc; simp [applySet, hc]
  · intro t ht; simp [applySet, ht]
  · intro c hc; simp [applySet, hc]

/-- Witness for C3: setting only `completed` to `true` on `sampleA` keeps its
title and `created_at` and stamps `updated_at`. -/
theorem update_todo_frame_witness :
    findOne (update_todo [sampleA] "aaaaaaaaaaaaaaaaaaaaaaaa" ⟨none, some (some true)⟩ 7).1 oidA
        = some (applySet sampleA ⟨none, some true, 7⟩)
    ∧ (update_todo [sampleA] "aaaaaaaaaaaaaaaaaaaaaaaa" ⟨none, some (some true)⟩ 7).2
        = Except.ok (serialize_todo (applySet sampleA ⟨none, some true, 7⟩))
    ∧ (applySet sampleA ⟨none, some true, 7⟩)._id = sampleA._id
    ∧ (applySet sampleA ⟨none, some true, 7⟩).created_at = sampleA.created_at
    ∧ (applySet sampleA ⟨none, some true, 7⟩).title = sampleA.title
    ∧ (applySet sampleA ⟨none, some true, 7⟩).completed = some true
    ∧ (applySet sampleA ⟨none, some true, 7⟩).updated_at = some 7 := by
  have h := update_todo_frame [sampleA] "aaaaaaaaaaaaaaaaaaaaaaaa" ⟨none, some (some true)⟩ 7
    oidA sampleA rfl rfl (by decide)
  exact ⟨h.1, h.2.1, h.2.2.1, h.2.2.2.1, h.2.2.2.2.1 rfl, h.2.2.2.2.2.2.2.1 true rfl,
    h.2.2.2.2.2.2.2.2⟩

/-- C6: create accepts any title string (the empty string included) and
persists a new todo with `completed = false`, the store-assigned `created_at`
and no `updated_at`, appended to the collection; the handler returns the new
document serialized. -/
theorem create_todo_spec (store : List Doc) (payload : TodoCreate)
    (newId : ObjectId) (now : Nat)
    (hfresh : ∀ d ∈ store, d._id ≠ newId) :
    create_todo store payload newId now
      = (store ++ [⟨newId, some payload.title, some false, some now, none⟩],
         Except.ok (serialize_todo ⟨newId, some payload.title, some false, some now, none⟩)) := by
  have hf := findOne_append_fresh hfresh
    (⟨newId, some payload.title, some false, some now, none⟩ : Doc) rfl
  unfold create_todo create_document
  simp [hf]

/-- Witness for C6: creating with the empty title appends the expected fresh
document to a one-document store. -/
theorem create_todo_spec_witness :
    create_todo [sampleA] ⟨""⟩ oidB 3
      = ([sampleA] ++ [⟨oidB, some "", some false, some 3, none⟩],
         Except.ok (serialize_todo ⟨oidB, some "", some false, some 3, none⟩)) :=
  create_todo_spec [sampleA] ⟨""⟩ oidB 3 (by decide)

/-- C7: `serialize_todo` emits `id` as the string form of the stored
identifier, `title` as the stored title or `""` when absent, `completed` as
the stored flag or `false` when absent, and both timestamps exactly as
stored. -/
theorem serialize_todo_contract (d : Doc) :
    (serialize_todo d).id = d._id.hex
    ∧ (d.title = none → (serialize_todo d).title = "")
    ∧ (∀ s, d.title = some s → (serialize_todo d).title = s)
    ∧ (d.completed = none → (serialize_todo d).completed = false)
    ∧ (∀ b, d.completed = some b → (serialize_todo d).completed = b)
    ∧ (serialize_todo d).created_at = d.created_at
    ∧ (serialize_todo d).updated_at = d.updated_at := by
  refine ⟨rfl, ?_, ?_, ?_, ?_, rfl, rfl⟩
  · intro h; simp [serialize_todo, h]
  · intro s h; simp [serialize_todo, h]
  · intro h; simp [serialize_todo, h]
  · intro b h; simp [serialize_todo, h]

/-- Witness for C7 on a document with absent `title` and `completed`. -/
theorem serialize_todo_contract_witness :
    (serialize_todo sampleBare).title = "" ∧ (serialize_todo sampleBare).completed = false :=
  ⟨(serialize_todo_contract sampleBare).2.1 rfl,
   (serialize_todo_contract sampleBare).2.2.2.1 rfl⟩

/-- C9: a successful delete is emitted on the wire with HTTP status 204 and no
response body. -/
theorem delete_success_204 (store : List Doc) (todo_id : String)
    (oid : ObjectId) (d : Doc)
    (hid : ObjectId.parse todo_id = some oid)
    (hd : findOne store oid = some d) :
    emit 204 (delete_todo store todo_id).2 = (204, HttpBody.empty) := by
  have h1 := delete_one_of_found hd
  unfold delete_todo
  rw [hid]
  simp [h1, emit]

/-- Witness for C9: deleting `sampleC` from a two-document store yields the
bodiless 204 response. -/
theorem delete_success_204_witness :
    emit 204 (delete_todo [sampleA, sampleC] "cccccccccccccccccccccccc").2
      = (204, HttpBody.empty) :=
  delete_success_204 [sampleA, sampleC] "cccccccccccccccccccccccc" oidC sampleC rfl rfl

/-- C10: the serialized document returned by create is exactly the
serialization of what an immediate re-read of the store at the assigned id
returns. -/
theorem create_read_roundtrip (store : List Doc) (payload : TodoCreate)
    (newId : ObjectId) (now : Nat)
    (hfresh : ∀ d ∈ store, d._id ≠ newId) :
    ∃ d, findOne (create_todo store payload newId now).1 newId = some d
      ∧ (create_todo store payload newId now).2 = Except.ok (serialize_todo d) := by
  have hf := findOne_append_fresh hfresh
    (⟨newId, some payload.title, some false, some now, none⟩ : Doc) rfl
  have hc : create_todo store payload newId now
      = (store ++ [⟨newId, some payload.title, some false, some now, none⟩],
         Except.ok (serialize_todo ⟨newId, some payload.title, some false, some now, none⟩)) := by
    unfold create_todo create_document
    simp [hf]
  exact ⟨_, by rw [hc]; exact hf, by rw [hc]⟩

/-- Witness for C10 at a concrete creation payload. -/
theorem create_read_roundtrip_witness :
    ∃ d, findOne (create_todo [sampleA] ⟨"Buy milk"⟩ oidB 3).1 oidB = some d
      ∧ (create_todo [sampleA] ⟨"Buy milk"⟩ oidB 3).2 = Except.ok (serialize_todo d) :=
  create_read_roundtrip [sampleA] ⟨"Buy milk"⟩ oidB 3 (by decide)

/-- C1 counterexample: with two stored documents of which one lacks
`created_at`, the list operation raises inside the sort and surfaces as a 500
error instead of succeeding with the absent-`created_at` document last. -/
theorem list_todos_mixed_absent_created_at_fails :
    list_todos [sampleA, sampleB]
      = Except.error
          ⟨500, "TypeError: unsupported comparison between NoneType and datetime"⟩ := rfl

/-- C1 (amended): when every stored document carries `created_at`, the list
operation succeeds and returns the whole collection sorted stably in
descending `created_at` order; but when the collection holds at least two
documents and any of them lacks `created_at`, the operation fails with a 500
internal error rather than succeeding. -/
theorem list_todos_spec (store : List Doc) :
    ((∀ d ∈ store, d.created_at ≠ none) →
      list_todos store = Except.ok ((store.mergeSort descLE).map serialize_todo)
      ∧ (store.mergeSort descLE).Perm store
      ∧ (store.mergeSort descLE).Pairwise
          (fun a b => b.created_at.getD 0 ≤ a.created_at.getD 0))
    ∧ (2 ≤ store.length →
        ∀ d ∈ store, d.created_at = none →
          list_todos store
            = Except.error
                ⟨500, "TypeError: unsupported comparison between NoneType and datetime"⟩) := by
  constructor
  · intro h
    have hany : store.any (fun d => d.created_at.isNone) = false := by
      simp only [List.any_eq_false]
      intro d hd
      simpa using h d hd
    refine ⟨?_, List.mergeSort_perm store descLE, ?_⟩
    · unfold list_todos
      simp [hany]
    · have htrans : ∀ (a b c : Doc), descLE a b → descLE b c → descLE a c := by
        intro a b c hab hbc
        simp only [descLE, decide_eq_true_eq] at hab hbc ⊢
        omega
      have htotal : ∀ (a b : Doc), descLE a b || descLE b a := by
        intro a b
        simp only [descLE]
        rcases Nat.le_total (b.created_at.getD 0) (a.created_at.getD 0) with hle | hle <;>
          simp [hle]
      have hs := List.sorted_mergeSort htrans htotal store
      exact hs.imp (fun hab => by simpa [descLE] using hab)
  · intro hlen d hd hnone
    have hany : store.any (fun x => x.created_at.isNone) = true :=
      List.any_eq_true.mpr ⟨d, hd, by simp [hnone]⟩
    unfold list_todos
    simp [hany, hlen]

/-- Witness for C1: a fully timestamped two-document collection lists sorted,
and a mixed collection fails with a 500 error. -/
theorem list_todos_spec_witness :
    (list_todos [sampleA, sampleC]
        = Except.ok (([sampleA, sampleC].mergeSort descLE).map serialize_todo)
      ∧ ([sampleA, sampleC].mergeSort descLE).Perm [sampleA, sampleC]
      ∧ ([sampleA, sampleC].mergeSort descLE).Pairwise
          (fun a b => b.created_at.getD 0 ≤ a.created_at.getD 0))
    ∧ list_todos [sampleA, sampleB]
        = Except.error
            ⟨500, "TypeError: unsupported comparison between NoneType and datetime"⟩ :=
  ⟨(list_todos_spec [sampleA, sampleC]).1 (by decide),
   (list_todos_spec [sampleA, sampleB]).2 (by decide) sampleB (by decide) rfl⟩

/-- C8: the diagnostic endpoint always answers HTTP 200 whatever the store
state; its payload reports only whether `DATABASE_URL` / `DATABASE_NAME` are
set, never their values (the response is unchanged when the values change but
their set-ness does not); and a failing connection is rendered as a
descriptive status string in the payload rather than an error. -/
theorem test_database_spec (db : Option DbHandle) (url dbname : Option String) :
    (test_database_endpoint db url dbname).1 = 200
    ∧ (test_database db url dbname).database_url
        = some (if envSet url then "✅ Set" else "❌ Not Set")
    ∧ (test_database db url dbname).database_name
        = some (if envSet dbname then "✅ Set" else "❌ Not Set")
    ∧ (∀ u2 n2, envSet url = envSet u2 → envSet dbname = envSet n2 →
        test_database db url dbname = test_database db u2 n2)
    ∧ (∀ hdl e, db = some hdl → hdl.collections = Except.error e →
        (test_database db url dbname).database
          = "⚠️  Connected but Error: " ++ e.take 50) := by
  refine ⟨rfl, rfl, rfl, ?_, ?_⟩
  · intro u2 n2 h1 h2
    simp only [test_database]
    rw [h1, h2]
  · intro hdl e hdb hc
    subst hdb
    simp [test_database, hc]

/-- Witness for C8: with a handle whose connection test fails, the payload is
identical for two different set `DATABASE_URL` values and renders the failure
as a status string. -/
theorem test_database_spec_witness :
    test_database (some ⟨some "mydb", Except.error "boom"⟩) (some "u") none
      = test_database (some ⟨some "mydb", Except.error "boom"⟩) (some "v") none
    ∧ (test_database (some ⟨some "mydb", Except.error "boom"⟩) (some "u") none).database
      = "⚠️  Connected but Error: " ++ "boom".take 50 :=
  ⟨(test_database_spec (some ⟨some "mydb", Except.error "boom"⟩) (some "u") none).2.2.2.1
      (some "v") none rfl rfl,
   (test_database_spec (some ⟨some "mydb", Except.error "boom"⟩) (some "u") none).2.2.2.2
      ⟨some "mydb", Except.error "boom"⟩ "boom" rfl rfl⟩

end TodoApp
